import Mathlib

/-!
Verification development for the capacityMonitoring repository: a Django/DRF
backend that ingests nested server-monitoring snapshots and exposes filterable
read endpoints.  The definitions below are a shallow embedding of the four
source files (monitoring models, serializers, filters, views).  Machine-level
framework behaviour that the source relies on is embedded per its documented
semantics: a serializer Meta may not set both the fields and the exclude
option, a model constructor rejects unknown keyword arguments, a Python call
rejects a keyword passed twice, and a NOT NULL column rejects a missing value.
Decimal columns (max_digits 5, decimal_places 2) are embedded as integers
scaled by 100.
-/

namespace CapacityMonitoring

/-- Error outcomes of the ingestion code that are not per-field validation
errors: serializer misconfiguration, model-constructor keyword errors,
duplicate keyword arguments at a call site, database integrity errors, and
the exception raised by is_valid with raise_exception set. -/
inductive PyErr where
  | configError (serializer : String)
  | unexpectedKwarg (kwname : String)
  | duplicateKwarg (kwname : String)
  | typeErrorArg (kwname : String)
  | integrityError (constraint : String)
  | validationError (errors : List (String × String))
deriving Repr, DecidableEq

/-- Result of running a serializer validation: a validated value, a list of
per-field errors, or a non-validation exception (crash). -/
inductive VResult (α : Type) where
  | ok (v : α)
  | invalid (errors : List (String × String))
  | crash (e : PyErr)
deriving Repr, DecidableEq

/-- True exactly when validation produced a validated value. -/
def VResult.isOk {α : Type} : VResult α → Bool
  | .ok _ => true
  | _ => false

/-! ## Declarative layer: model columns and serializer Meta options

The Django model classes are declarative; their column lists are embedded as
name lists so that statements about which fields exist are directly checkable.
-/

/-- Columns of the ServerMetric model (models lines 5-19). -/
def serverMetricModelFields : List String := ["id", "timestamp", "hostname"]

/-- Columns of the AssetInfo model (models lines 22-41): an automatic primary
key, the one-to-one key to ServerMetric, and its own hostname column, which
the model itself describes as redundant but kept for structure. -/
def assetInfoModelFields : List String := ["id", "server_metric", "hostname"]

/-- Columns of the SystemInfo model (models lines 62-82).  The model declares
manufacturer, product name, serial number, BIOS version, chassis type and the
initial uptime string, and nothing else. -/
def systemInfoModelFields : List String :=
  ["id", "asset_info", "manufacturer", "product_name", "serial_number",
   "bios_version", "chassis_type", "uptime_initial"]

/-- The two Meta options of a model serializer that select its field set. -/
structure SerializerMeta where
  fieldsOpt : Option (List String)
  excludeOpt : Option (List String)
deriving Repr, DecidableEq

/-- Meta of SystemInfoSerializer (serializers lines 18-27): it sets exclude
and also sets fields, and the fields tuple names last_update_check_time and
pending_updates_count in addition to the six model columns. -/
def systemInfoSerializerMeta : SerializerMeta :=
  { excludeOpt := some ["id", "asset_info"],
    fieldsOpt := some
      ["manufacturer", "product_name", "serial_number", "bios_version",
       "chassis_type", "uptime_initial", "last_update_check_time",
       "pending_updates_count"] }

/-- Documented serializer-layer acceptance of a Meta: setting both fields and
exclude is rejected (an assertion at first field access), and every name
listed in fields must be a field of the model. -/
def drfMetaOk (m : SerializerMeta) (modelFields : List String) : Bool :=
  !(m.fieldsOpt.isSome && m.excludeOpt.isSome)
  && (m.fieldsOpt.getD []).all (fun f => modelFields.contains f)

/-! ## Raw input shapes

One structure per nested JSON object of the ingestion payload; a missing key
is none.  Integer-valued decimal fields carry the value scaled by 100. -/

structure OSInfoInput where
  pretty_name : Option String := none
  kernel_version : Option String := none
deriving Repr, DecidableEq

structure SystemInfoInput where
  manufacturer : Option String := none
  product_name : Option String := none
  serial_number : Option String := none
  bios_version : Option String := none
  chassis_type : Option String := none
  uptime_initial : Option String := none
deriving Repr, DecidableEq

structure CPUInfoInput where
  model_name : Option String := none
  vendor_id : Option String := none
  total_logical_cpus : Option Int := none
  physical_cores_per_socket : Option Int := none
  architecture : Option String := none
deriving Repr, DecidableEq

structure MemoryInfoInput where
  total_mb : Option Int := none
  speed : Option String := none
  modules_count : Option Int := none
deriving Repr, DecidableEq

structure VirtualizationInfoInput where
  is_vm : Option Bool := none
  hypervisor : Option String := none
deriving Repr, DecidableEq

structure DiskInfoInput where
  name : Option String := none
  size : Option String := none
  model : Option String := none
  serial : Option String := none
deriving Repr, DecidableEq

structure NetworkInterfaceInput where
  name : Option String := none
  mac_address : Option String := none
  ipv4_address : Option String := none
  ipv6_address : Option String := none
deriving Repr, DecidableEq

structure WindowsUpdateInput where
  kb_id : Option String := none
  title : Option String := none
  installed_on : Option Int := none
  status : Option String := none
deriving Repr, DecidableEq

/-- The asset_info sub-document accepted by AssetInfoSerializer (serializers
lines 61-77): five required nested objects, three optional lists, and the
model field hostname (required: the column has no blank option and no
default). -/
structure AssetInfoInput where
  os : Option OSInfoInput := none
  system : Option SystemInfoInput := none
  cpu : Option CPUInfoInput := none
  memory : Option MemoryInfoInput := none
  virtualization : Option VirtualizationInfoInput := none
  disks : Option (List DiskInfoInput) := none
  network_interfaces : Option (List NetworkInterfaceInput) := none
  windows_updates : Option (List WindowsUpdateInput) := none
  hostname : Option String := none
deriving Repr, DecidableEq

/-! ## Field-level validation -/

/-- The standard per-field error for a missing required field. -/
def requiredErr (fieldName : String) : List (String × String) :=
  [(fieldName, "This field is required.")]

/-- Digit-capacity check of a DecimalField with max digits 5 and 2 decimal
places, on values scaled by 100: at most five digits in total, hence absolute
scaled value at most 99999 (that is, up to 999.99).  This is the only numeric
bound the source declares on its percentage columns; no range validator
restricts them to 0..100. -/
def dec52Ok (x : Int) : Bool := decide (x.natAbs ≤ 99999)

/-- Error text of the digit-capacity check. -/
def digitsMsg : String := "Ensure that there are no more than 5 digits in total."

/-- Checks the serializer layer derives for a present CharField / TextField
value: a blank value is rejected unless the model column allows blank, and a
CharField value may not exceed the column max_length. -/
def charFieldErrors (fieldName : String) (allowBlank : Bool) (maxLength : Option Nat)
    (s : String) : List (String × String) :=
  (if !allowBlank && s.data.isEmpty then
     [(fieldName, "This field may not be blank.")]
   else [])
  ++ (match maxLength with
      | none => []
      | some n =>
          if s.data.length ≤ n then []
          else [(fieldName, "Ensure this field has no more than "
                  ++ toString n ++ " characters.")])

/-- Writable fields of ProcessDetailSerializer (serializers lines 132-135):
every ProcessDetail column except the excluded id and parent key.  Note that
process_type is among them: the serializer does not exclude it or mark it
read-only, and the model field has no default and no blank option, so it is a
required direct input of every by_cpu / by_memory entry. -/
def processDetailSerializerWritableFields : List String :=
  ["process_type", "pid", "user", "cpu_percent", "mem_percent", "command"]

/-- Per-item errors of a disks entry (DiskInfoSerializer): name and size are
required non-blank columns of length 50, model and serial are blank-allowed
columns of length 255. -/
def diskInfoItemErrors (d : DiskInfoInput) : List (String × String) :=
  (match d.name with
   | none => requiredErr "name"
   | some s => charFieldErrors "name" false (some 50) s)
  ++ (match d.size with
      | none => requiredErr "size"
      | some s => charFieldErrors "size" false (some 50) s)
  ++ (match d.model with
      | none => []
      | some s => charFieldErrors "model" true (some 255) s)
  ++ (match d.serial with
      | none => []
      | some s => charFieldErrors "serial" true (some 255) s)

/-- Per-item errors of a network_interfaces entry: name is a required
non-blank column of length 50, the MAC address a blank-allowed column of
length 17 (the IP address format checks are not modelled). -/
def networkInterfaceItemErrors (n : NetworkInterfaceInput) : List (String × String) :=
  (match n.name with
   | none => requiredErr "name"
   | some s => charFieldErrors "name" false (some 50) s)
  ++ (match n.mac_address with
      | none => []
      | some s => charFieldErrors "mac_address" true (some 17) s)

/-- Per-field checks of a present os sub-object: both columns are
blank-allowed CharFields of length 255. -/
def osInfoItemErrors (o : OSInfoInput) : List (String × String) :=
  (match o.pretty_name with
   | none => []
   | some s => charFieldErrors "pretty_name" true (some 255) s)
  ++ (match o.kernel_version with
      | none => []
      | some s => charFieldErrors "kernel_version" true (some 255) s)

/-- Per-field checks of a present cpu sub-object: the string columns are
blank-allowed (lengths 255, 255 and 50); the integer columns have defaults
and no bounds. -/
def cpuInfoItemErrors (c : CPUInfoInput) : List (String × String) :=
  (match c.model_name with
   | none => []
   | some s => charFieldErrors "model_name" true (some 255) s)
  ++ (match c.vendor_id with
      | none => []
      | some s => charFieldErrors "vendor_id" true (some 255) s)
  ++ (match c.architecture with
      | none => []
      | some s => charFieldErrors "architecture" true (some 50) s)

/-- Per-field checks of a present memory sub-object: speed is a blank-allowed
column of length 100; the integer columns have defaults. -/
def memoryInfoItemErrors (m : MemoryInfoInput) : List (String × String) :=
  match m.speed with
  | none => []
  | some s => charFieldErrors "speed" true (some 100) s

/-- Per-field checks of a present virtualization sub-object: hypervisor is a
blank-allowed column of length 100; the flag has a default. -/
def virtualizationItemErrors (v : VirtualizationInfoInput) : List (String × String) :=
  match v.hypervisor with
  | none => []
  | some s => charFieldErrors "hypervisor" true (some 100) s

/-- Field errors AssetInfoSerializer collects over its writable fields, in
field order (declared nested serializers, then the model field hostname).
The nested one-to-one objects os, system, cpu, memory and virtualization are
declared without a required option, hence required; the three lists are
declared with required set to false; hostname is a required model field with
no blank option and max_length 255, so a present value must be non-blank and
within length.  The inner fields of the present sub-objects are optional and
blank-allowed but still subject to their length bounds. -/
def assetFieldErrors (a : AssetInfoInput) : List (String × String) :=
  (match a.os with
   | none => requiredErr "os"
   | some o => if (osInfoItemErrors o).isEmpty then [] else [("os", "invalid")])
  ++ (if a.system.isNone then requiredErr "system" else [])
  ++ (match a.cpu with
      | none => requiredErr "cpu"
      | some c => if (cpuInfoItemErrors c).isEmpty then [] else [("cpu", "invalid")])
  ++ (match a.memory with
      | none => requiredErr "memory"
      | some m =>
          if (memoryInfoItemErrors m).isEmpty then [] else [("memory", "invalid")])
  ++ (match a.virtualization with
      | none => requiredErr "virtualization"
      | some v =>
          if (virtualizationItemErrors v).isEmpty then []
          else [("virtualization", "invalid")])
  ++ (match a.disks with
      | none => []
      | some ds =>
          if ds.all (fun d => (diskInfoItemErrors d).isEmpty) then []
          else [("disks", "invalid")])
  ++ (match a.network_interfaces with
      | none => []
      | some ns =>
          if ns.all (fun n => (networkInterfaceItemErrors n).isEmpty) then []
          else [("network_interfaces", "invalid")])
  ++ (match a.hostname with
      | none => requiredErr "hostname"
      | some h => charFieldErrors "hostname" false (some 255) h)

/-- Validation of an asset_info document by AssetInfoSerializer.  The fields
are visited in declaration order: os first, then system.  When system is
present, its nested SystemInfoSerializer builds its field set on first use,
and that build is rejected: the Meta sets both fields and exclude (an
assertion failure in the serializer layer), and its fields tuple names two
columns the SystemInfo model does not define.  The whole validation therefore
aborts with a non-validation exception before the later fields are examined.
When system is absent, a required error for it is collected along with the
errors of the remaining fields, so validation can never succeed: it either
crashes or reports field errors that include system. -/
def assetInfoValidate (a : AssetInfoInput) : VResult Unit :=
  match a.system with
  | some _ => .crash (.configError "SystemInfoSerializer")
  | none => .invalid (assetFieldErrors a)

/-! ### Metric-side inputs and validated values -/

structure MemoryUsageInput where
  total_mb : Option Int := none
  used_mb : Option Int := none
  free_mb : Option Int := none
  available_mb : Option Int := none
  percentage_used : Option Int := none
deriving Repr, DecidableEq

structure CPULoadInput where
  load_1min : Option Int := none
  load_5min : Option Int := none
  load_15min : Option Int := none
deriving Repr, DecidableEq

structure NetworkUsageInput where
  received_bps : Option Int := none
  transmitted_bps : Option Int := none
deriving Repr, DecidableEq

structure ProcessDetailInput where
  process_type : Option String := none
  pid : Option Int := none
  user : Option String := none
  cpu_percent : Option Int := none
  mem_percent : Option Int := none
  command : Option String := none
deriving Repr, DecidableEq

structure TopProcessesInput where
  by_cpu : Option (List ProcessDetailInput) := none
  by_memory : Option (List ProcessDetailInput) := none
deriving Repr, DecidableEq

structure DiskUsageInput where
  filesystem : Option String := none
  percentage_used : Option Int := none
  total_size : Option String := none
  used_size : Option String := none
  available_size : Option String := none
deriving Repr, DecidableEq

structure TopDiskConsumerInput where
  size : Option String := none
  path : Option String := none
deriving Repr, DecidableEq

structure MetricDataInput where
  memory_usage : Option MemoryUsageInput := none
  cpu_load : Option CPULoadInput := none
  network_usage : Option NetworkUsageInput := none
  top_processes : Option TopProcessesInput := none
  disk_usage : Option (List DiskUsageInput) := none
  top_disk_consumers : Option (List TopDiskConsumerInput) := none
deriving Repr, DecidableEq

/-- Validated memory_usage document: all five fields are required columns
without defaults. -/
structure VMemoryUsage where
  total_mb : Int
  used_mb : Int
  free_mb : Int
  available_mb : Int
  percentage_used : Int
deriving Repr, DecidableEq

/-- Validated entry of a by_cpu or by_memory list.  process_type is present:
it is a required writable field of ProcessDetailSerializer. -/
structure VProcessDetail where
  process_type : String
  pid : Int
  user : String
  cpu_percent : Int
  mem_percent : Int
  command : String
deriving Repr, DecidableEq

structure VTopProcesses where
  by_cpu : Option (List VProcessDetail) := none
  by_memory : Option (List VProcessDetail) := none
deriving Repr, DecidableEq

structure VDiskUsage where
  filesystem : String
  percentage_used : Int
  total_size : String
  used_size : String
  available_size : String
deriving Repr, DecidableEq

structure VCPULoad where
  load_1min : Int
  load_5min : Int
  load_15min : Int
deriving Repr, DecidableEq

structure VNetworkUsage where
  received_bps : Int
  transmitted_bps : Int
deriving Repr, DecidableEq

structure VTopDiskConsumer where
  size : String
  path : String
deriving Repr, DecidableEq

/-- Validated metrics document as produced by MetricDataSerializer. -/
structure VMetricData where
  memory_usage : VMemoryUsage
  cpu_load : VCPULoad
  network_usage : VNetworkUsage
  top_processes : VTopProcesses
  disk_usage : Option (List VDiskUsage) := none
  top_disk_consumers : Option (List VTopDiskConsumer) := none
deriving Repr, DecidableEq

/-- Field errors of a memory_usage document: the four integer columns and the
percentage are required; the percentage additionally passes the decimal
digit-capacity check and nothing else. -/
def memoryUsageErrors (m : MemoryUsageInput) : List (String × String) :=
  (if m.total_mb.isNone then requiredErr "total_mb" else [])
  ++ (if m.used_mb.isNone then requiredErr "used_mb" else [])
  ++ (if m.free_mb.isNone then requiredErr "free_mb" else [])
  ++ (if m.available_mb.isNone then requiredErr "available_mb" else [])
  ++ (match m.percentage_used with
      | none => requiredErr "percentage_used"
      | some p => if dec52Ok p then [] else [("percentage_used", digitsMsg)])

/-- Validation of a memory_usage document by MemoryUsageMetricSerializer. -/
def memoryUsageValidate (m : MemoryUsageInput) : VResult VMemoryUsage :=
  match m.total_mb, m.used_mb, m.free_mb, m.available_mb, m.percentage_used with
  | some t, some u, some f, some av, some p =>
      if (memoryUsageErrors m).isEmpty then .ok ⟨t, u, f, av, p⟩
      else .invalid (memoryUsageErrors m)
  | _, _, _, _, _ => .invalid (memoryUsageErrors m)

/-- Field errors of a by_cpu / by_memory entry (ProcessDetailSerializer): all
six writable fields are required; process_type must be one of the two model
choices; user and command are non-blank (user within length 255); the two
percentage columns pass the digit-capacity check and no range check. -/
def processDetailErrors (e : ProcessDetailInput) : List (String × String) :=
  (match e.process_type with
   | none => requiredErr "process_type"
   | some ty =>
       if ty == "cpu" || ty == "memory" then []
       else [("process_type", "is not a valid choice.")])
  ++ (if e.pid.isNone then requiredErr "pid" else [])
  ++ (match e.user with
      | none => requiredErr "user"
      | some s => charFieldErrors "user" false (some 255) s)
  ++ (match e.cpu_percent with
      | none => requiredErr "cpu_percent"
      | some p => if dec52Ok p then [] else [("cpu_percent", digitsMsg)])
  ++ (match e.mem_percent with
      | none => requiredErr "mem_percent"
      | some p => if dec52Ok p then [] else [("mem_percent", digitsMsg)])
  ++ (match e.command with
      | none => requiredErr "command"
      | some s => charFieldErrors "command" false none s)

/-- Validation of one by_cpu / by_memory entry by ProcessDetailSerializer. -/
def processDetailValidate (e : ProcessDetailInput) : VResult VProcessDetail :=
  match e.process_type, e.pid, e.user, e.cpu_percent, e.mem_percent, e.command with
  | some ty, some pid, some u, some cp, some mp, some cmd =>
      if (processDetailErrors e).isEmpty then .ok ⟨ty, pid, u, cp, mp, cmd⟩
      else .invalid (processDetailErrors e)
  | _, _, _, _, _, _ => .invalid (processDetailErrors e)

/-- Field errors of a disk_usage entry: all five columns are required, the
string columns are non-blank and length-bounded (255 for the filesystem, 50
for the sizes), and the percentage passes the digit-capacity check and no
range check. -/
def diskUsageErrors (d : DiskUsageInput) : List (String × String) :=
  (match d.filesystem with
   | none => requiredErr "filesystem"
   | some s => charFieldErrors "filesystem" false (some 255) s)
  ++ (match d.percentage_used with
      | none => requiredErr "percentage_used"
      | some p => if dec52Ok p then [] else [("percentage_used", digitsMsg)])
  ++ (match d.total_size with
      | none => requiredErr "total_size"
      | some s => charFieldErrors "total_size" false (some 50) s)
  ++ (match d.used_size with
      | none => requiredErr "used_size"
      | some s => charFieldErrors "used_size" false (some 50) s)
  ++ (match d.available_size with
      | none => requiredErr "available_size"
      | some s => charFieldErrors "available_size" false (some 50) s)

/-- Validation of one disk_usage entry by DiskUsageMetricSerializer. -/
def diskUsageValidate (d : DiskUsageInput) : VResult VDiskUsage :=
  match d.filesystem, d.percentage_used, d.total_size, d.used_size, d.available_size with
  | some fs, some p, some ts, some us, some avs =>
      if (diskUsageErrors d).isEmpty then .ok ⟨fs, p, ts, us, avs⟩
      else .invalid (diskUsageErrors d)
  | _, _, _, _, _ => .invalid (diskUsageErrors d)

/-! ## Persisted rows and database state -/

structure ServerMetricRow where
  id : Nat
  timestamp : Int
  hostname : String
deriving Repr, DecidableEq

structure AssetInfoRow where
  id : Nat
  server_metric : Nat
  hostname : String
deriving Repr, DecidableEq

structure OSInfoRow where
  id : Nat
  asset_info : Nat
  pretty_name : String
  kernel_version : String
deriving Repr, DecidableEq

structure SystemInfoRow where
  id : Nat
  asset_info : Nat
  manufacturer : String
  product_name : String
  serial_number : String
  bios_version : String
  chassis_type : String
  uptime_initial : String
deriving Repr, DecidableEq

structure CPUInfoRow where
  id : Nat
  asset_info : Nat
  model_name : String
  vendor_id : String
  total_logical_cpus : Int
  physical_cores_per_socket : Int
  architecture : String
deriving Repr, DecidableEq

structure MemoryInfoRow where
  id : Nat
  asset_info : Nat
  total_mb : Int
  speed : String
  modules_count : Int
deriving Repr, DecidableEq

structure DiskInfoRow where
  id : Nat
  asset_info : Nat
  name : String
  size : String
  model : String
  serial : String
deriving Repr, DecidableEq

structure NetworkInterfaceRow where
  id : Nat
  asset_info : Nat
  name : String
  mac_address : String
  ipv4_address : Option String
  ipv6_address : Option String
deriving Repr, DecidableEq

structure VirtualizationInfoRow where
  id : Nat
  asset_info : Nat
  is_vm : Bool
  hypervisor : String
deriving Repr, DecidableEq

/-- Modelled from the spec: the WindowsUpdate model class is imported from
the models module by the serializers, filters and views, but its declaration
is not among the source files.  Per the data-model section of the spec it
carries a KB id, a title, an installed-on timestamp and a status, and is
owned one-to-many by AssetInfo. -/
structure WindowsUpdateRow where
  id : Nat
  asset_info : Nat
  kb_id : String
  title : String
  installed_on : Int
  status : String
deriving Repr, DecidableEq

structure MetricDataRow where
  id : Nat
  server_metric : Nat
deriving Repr, DecidableEq

structure MemoryUsageRow where
  id : Nat
  metrics_data : Nat
  total_mb : Int
  used_mb : Int
  free_mb : Int
  available_mb : Int
  percentage_used : Int
deriving Repr, DecidableEq

structure CPULoadRow where
  id : Nat
  metrics_data : Nat
  load_1min : Int
  load_5min : Int
  load_15min : Int
deriving Repr, DecidableEq

structure NetworkUsageRow where
  id : Nat
  metrics_data : Nat
  received_bps : Int
  transmitted_bps : Int
deriving Repr, DecidableEq

structure TopProcessesRow where
  id : Nat
  metrics_data : Nat
deriving Repr, DecidableEq

structure ProcessDetailRow where
  id : Nat
  top_processes_metric : Nat
  process_type : String
  pid : Int
  user : String
  cpu_percent : Int
  mem_percent : Int
  command : String
deriving Repr, DecidableEq

structure DiskUsageRow where
  id : Nat
  metrics_data : Nat
  filesystem : String
  percentage_used : Int
  total_size : String
  used_size : String
  available_size : String
deriving Repr, DecidableEq

structure TopDiskConsumerRow where
  id : Nat
  metrics_data : Nat
  size : String
  path : String
deriving Repr, DecidableEq

/-- The relational store: one list per table plus the next generated id. -/
structure DB where
  serverMetrics : List ServerMetricRow := []
  assetInfos : List AssetInfoRow := []
  osInfos : List OSInfoRow := []
  systemInfos : List SystemInfoRow := []
  cpuInfos : List CPUInfoRow := []
  memoryInfos : List MemoryInfoRow := []
  diskInfos : List DiskInfoRow := []
  networkInterfaces : List NetworkInterfaceRow := []
  virtualizationInfos : List VirtualizationInfoRow := []
  windowsUpdates : List WindowsUpdateRow := []
  metricDatas : List MetricDataRow := []
  memoryUsages : List MemoryUsageRow := []
  cpuLoads : List CPULoadRow := []
  networkUsages : List NetworkUsageRow := []
  topProcessesMetrics : List TopProcessesRow := []
  processDetails : List ProcessDetailRow := []
  diskUsageMetrics : List DiskUsageRow := []
  topDiskConsumers : List TopDiskConsumerRow := []
  nextId : Nat := 1
deriving Repr, DecidableEq

/-! ## Writes

Each objects.create call of the source is embedded as an insert.  A foreign
key the call sites may leave unset is passed as an Option: a missing value
violates the NOT NULL column and raises an IntegrityError, exactly as the
database would.  Inserts into tables with a unique_together constraint check
it first. -/

/-- Insert the root ServerMetric row (create, serializers line 238). -/
def insertServerMetric (timestamp : Int) (hostname : String) (db : DB) : DB × Nat :=
  ({ db with
      serverMetrics := db.serverMetrics ++ [⟨db.nextId, timestamp, hostname⟩],
      nextId := db.nextId + 1 }, db.nextId)

/-- Insert an AssetInfo row; the one-to-one key to ServerMetric is NOT NULL. -/
def insertAssetInfo (server_metric : Option Nat) (hostname : String) (db : DB) :
    Except PyErr (DB × Nat) :=
  match server_metric with
  | none => .error (.integrityError "asset_info.server_metric_id")
  | some smId =>
      .ok ({ db with
              assetInfos := db.assetInfos ++ [⟨db.nextId, smId, hostname⟩],
              nextId := db.nextId + 1 }, db.nextId)

/-- Insert a MetricData row; the one-to-one key to ServerMetric is NOT NULL. -/
def insertMetricData (server_metric : Option Nat) (db : DB) : Except PyErr (DB × Nat) :=
  match server_metric with
  | none => .error (.integrityError "metric_data.server_metric_id")
  | some smId =>
      .ok ({ db with
              metricDatas := db.metricDatas ++ [⟨db.nextId, smId⟩],
              nextId := db.nextId + 1 }, db.nextId)

/-- Insert a TopProcessesMetric row; the one-to-one key to MetricData is NOT
NULL. -/
def insertTopProcesses (metrics_data : Option Nat) (db : DB) : Except PyErr (DB × Nat) :=
  match metrics_data with
  | none => .error (.integrityError "top_processes_metric.metrics_data_id")
  | some mdId =>
      .ok ({ db with
              topProcessesMetrics := db.topProcessesMetrics ++ [⟨db.nextId, mdId⟩],
              nextId := db.nextId + 1 }, db.nextId)

def insertMemoryUsage (mdId : Nat) (m : VMemoryUsage) (db : DB) : DB :=
  { db with
      memoryUsages := db.memoryUsages ++
        [⟨db.nextId, mdId, m.total_mb, m.used_mb, m.free_mb, m.available_mb,
          m.percentage_used⟩],
      nextId := db.nextId + 1 }

def insertCPULoad (mdId : Nat) (c : VCPULoad) (db : DB) : DB :=
  { db with
      cpuLoads := db.cpuLoads ++
        [⟨db.nextId, mdId, c.load_1min, c.load_5min, c.load_15min⟩],
      nextId := db.nextId + 1 }

def insertNetworkUsage (mdId : Nat) (n : VNetworkUsage) (db : DB) : DB :=
  { db with
      networkUsages := db.networkUsages ++
        [⟨db.nextId, mdId, n.received_bps, n.transmitted_bps⟩],
      nextId := db.nextId + 1 }

/-- Insert a DiskUsageMetric row, honouring the unique_together constraint on
(metrics_data, filesystem). -/
def insertDiskUsage (mdId : Nat) (d : VDiskUsage) (db : DB) : Except PyErr DB :=
  if db.diskUsageMetrics.any
      (fun r => r.metrics_data == mdId && r.filesystem == d.filesystem) then
    .error (.integrityError "disk_usage unique (metrics_data, filesystem)")
  else
    .ok { db with
            diskUsageMetrics := db.diskUsageMetrics ++
              [⟨db.nextId, mdId, d.filesystem, d.percentage_used, d.total_size,
                d.used_size, d.available_size⟩],
            nextId := db.nextId + 1 }

/-- Insert a TopDiskConsumerMetric row, honouring the unique_together
constraint on (metrics_data, path). -/
def insertTopDiskConsumer (mdId : Nat) (t : VTopDiskConsumer) (db : DB) :
    Except PyErr DB :=
  if db.topDiskConsumers.any
      (fun r => r.metrics_data == mdId && r.path == t.path) then
    .error (.integrityError "top_disk_consumer unique (metrics_data, path)")
  else
    .ok { db with
            topDiskConsumers := db.topDiskConsumers ++
              [⟨db.nextId, mdId, t.size, t.path⟩],
            nextId := db.nextId + 1 }

/-- Insert a DiskInfo row, honouring the unique_together constraint on
(asset_info, name).  Validated disk entries always carry name and size; the
optional fields fall back to the blank model defaults. -/
def insertDiskInfo (aId : Nat) (d : DiskInfoInput) (db : DB) : Except PyErr DB :=
  if db.diskInfos.any
      (fun r => r.asset_info == aId && r.name == d.name.getD "") then
    .error (.integrityError "disk_info unique (asset_info, name)")
  else
    .ok { db with
            diskInfos := db.diskInfos ++
              [⟨db.nextId, aId, d.name.getD "", d.size.getD "", d.model.getD "",
                d.serial.getD ""⟩],
            nextId := db.nextId + 1 }

/-- Insert a NetworkInterfaceInfo row, honouring the unique_together
constraint on (asset_info, name). -/
def insertNetworkInterface (aId : Nat) (n : NetworkInterfaceInput) (db : DB) :
    Except PyErr DB :=
  if db.networkInterfaces.any
      (fun r => r.asset_info == aId && r.name == n.name.getD "") then
    .error (.integrityError "network_interface unique (asset_info, name)")
  else
    .ok { db with
            networkInterfaces := db.networkInterfaces ++
              [⟨db.nextId, aId, n.name.getD "", n.mac_address.getD "",
                n.ipv4_address, n.ipv6_address⟩],
            nextId := db.nextId + 1 }

/-- Names passed as keyword arguments by the ProcessDetail.objects.create
call at serializers lines 158-163 (and again at 165-170): the parent key and
the hard-coded process_type, followed by every key of the validated entry,
which necessarily include process_type again because it is a required
writable field of ProcessDetailSerializer. -/
def processDetailCreateKwargs : List String :=
  ["top_processes_metric", "process_type"]
  ++ processDetailSerializerWritableFields

/-- First name occurring twice in a keyword-argument list, if any; Python
rejects such a call with a TypeError before the callee runs. -/
def firstDuplicate : List String → Option String
  | [] => none
  | n :: rest => if rest.contains n then some n else firstDuplicate rest

/-- Embedding of one ProcessDetail.objects.create call from
TopProcessesMetricSerializer.create.  The keyword list always repeats
process_type, so the call raises before any row is written; the insert in the
other branch records what the call would store. -/
def processDetailCreate (tpId : Nat) (tag : String) (e : VProcessDetail) (db : DB) :
    Except PyErr (DB × Nat) :=
  match firstDuplicate processDetailCreateKwargs with
  | some n => .error (.duplicateKwarg n)
  | none =>
      .ok ({ db with
              processDetails := db.processDetails ++
                [⟨db.nextId, tpId, tag, e.pid, e.user, e.cpu_percent,
                  e.mem_percent, e.command⟩],
              nextId := db.nextId + 1 }, db.nextId)

/-- The for-loops of TopProcessesMetricSerializer.create over one list; an
exception propagates with the state reached so far. -/
def processDetailCreateLoop (tpId : Nat) (tag : String) :
    List VProcessDetail → DB → DB × Except PyErr Unit
  | [], db => (db, .ok ())
  | e :: rest, db =>
      match processDetailCreate tpId tag e db with
      | .error err => (db, .error err)
      | .ok (db1, _) => processDetailCreateLoop tpId tag rest db1

/-- Embedding of TopProcessesMetricSerializer.create (serializers lines
150-171).  After the two pops the validated data holds no metrics_data key,
so the container row is inserted with its NOT NULL one-to-one column unset;
were the container ever created, each by_cpu entry would be expanded with the
cpu tag and each by_memory entry with the memory tag.  Note that
MetricDataSerializer.create never invokes this method: it instantiates the
TopProcessesMetric model directly (line 211). -/
def topProcessesSerializerCreate (v : VTopProcesses) (db : DB) :
    DB × Except PyErr Nat :=
  match insertTopProcesses none db with
  | .error e => (db, .error e)
  | .ok (db1, tpId) =>
      match processDetailCreateLoop tpId "cpu" (v.by_cpu.getD []) db1 with
      | (db2, .error e) => (db2, .error e)
      | (db2, .ok _) =>
          match processDetailCreateLoop tpId "memory" (v.by_memory.getD []) db2 with
          | (db3, .error e) => (db3, .error e)
          | (db3, .ok _) => (db3, .ok tpId)

/-- Embedding of the call at serializers line 211:
TopProcessesMetric.objects.create(metrics_data=metrics_data,
**top_processes_data).  The validated top_processes dict still holds the
write-only by_cpu / by_memory keys when they were supplied, and the model
constructor rejects them as unknown keyword arguments.  This call, not the
custom create above, is what the metric-data flow executes, so the tagged
expansion into ProcessDetail rows never runs. -/
def topProcessesDirectCreate (mdId : Nat) (tp : VTopProcesses) (db : DB) :
    DB × Except PyErr Nat :=
  if tp.by_cpu.isSome then (db, .error (.unexpectedKwarg "by_cpu"))
  else if tp.by_memory.isSome then (db, .error (.unexpectedKwarg "by_memory"))
  else
    match insertTopProcesses (some mdId) db with
    | .error e => (db, .error e)
    | .ok (db1, tpId) => (db1, .ok tpId)

def diskUsageLoop (mdId : Nat) : List VDiskUsage → DB → DB × Except PyErr Unit
  | [], db => (db, .ok ())
  | d :: rest, db =>
      match insertDiskUsage mdId d db with
      | .error err => (db, .error err)
      | .ok db1 => diskUsageLoop mdId rest db1

def topDiskConsumerLoop (mdId : Nat) :
    List VTopDiskConsumer → DB → DB × Except PyErr Unit
  | [], db => (db, .ok ())
  | t :: rest, db =>
      match insertTopDiskConsumer mdId t db with
      | .error err => (db, .error err)
      | .ok db1 => topDiskConsumerLoop mdId rest db1

/-- Embedding of MetricDataSerializer.create (serializers lines 195-218).
Line 206 runs MetricData.objects.create on the validated data left after the
pops, which holds no server_metric key — the method body never receives or
sets one — so the very first insert violates the NOT NULL one-to-one column.
The remaining statements are embedded as written: the three one-to-one metric
inserts, the direct model instantiation for top_processes (line 211), and the
two list loops. -/
def metricDataCreate (v : VMetricData) (db : DB) : DB × Except PyErr Nat :=
  match insertMetricData none db with
  | .error e => (db, .error e)
  | .ok (db1, mdId) =>
      let db2 := insertMemoryUsage mdId v.memory_usage db1
      let db3 := insertCPULoad mdId v.cpu_load db2
      let db4 := insertNetworkUsage mdId v.network_usage db3
      match topProcessesDirectCreate mdId v.top_processes db4 with
      | (db5, .error e) => (db5, .error e)
      | (db5, .ok _) =>
          match diskUsageLoop mdId (v.disk_usage.getD []) db5 with
          | (db6, .error e) => (db6, .error e)
          | (db6, .ok _) =>
              match topDiskConsumerLoop mdId (v.top_disk_consumers.getD []) db6 with
              | (db7, .error e) => (db7, .error e)
              | (db7, .ok _) => (db7, .ok mdId)

/-- Validated asset_info data as AssetInfoSerializer.create would receive it:
the five one-to-one sub-documents (whose own fields are all optional), the
three optional lists, and the hostname. -/
structure VAssetInfoData where
  os : OSInfoInput := {}
  system : SystemInfoInput := {}
  cpu : CPUInfoInput := {}
  memory : MemoryInfoInput := {}
  virtualization : VirtualizationInfoInput := {}
  disks : Option (List DiskInfoInput) := none
  network_interfaces : Option (List NetworkInterfaceInput) := none
  windows_updates : Option (List WindowsUpdateInput) := none
  hostname : String
deriving Repr, DecidableEq

def diskInfoLoop (aId : Nat) : List DiskInfoInput → DB → DB × Except PyErr Unit
  | [], db => (db, .ok ())
  | d :: rest, db =>
      match insertDiskInfo aId d db with
      | .error err => (db, .error err)
      | .ok db1 => diskInfoLoop aId rest db1

def networkInterfaceLoop (aId : Nat) :
    List NetworkInterfaceInput → DB → DB × Except PyErr Unit
  | [], db => (db, .ok ())
  | n :: rest, db =>
      match insertNetworkInterface aId n db with
      | .error err => (db, .error err)
      | .ok db1 => networkInterfaceLoop aId rest db1

/-- Embedding of AssetInfoSerializer.create (serializers lines 79-108).
After the pops the validated data holds only hostname, and the method body
never receives or sets a server_metric value, so line 93 inserts the AssetInfo
row with its NOT NULL one-to-one column unset and fails.  The child inserts of
lines 95-106 are embedded as written (dead as called); the disk and interface
loops honour the per-asset name uniqueness constraints. -/
def assetInfoCreateBody (v : VAssetInfoData) (db : DB) : DB × Except PyErr Nat :=
  match insertAssetInfo none v.hostname db with
  | .error e => (db, .error e)
  | .ok (db1, aId) =>
      let db2 : DB := { db1 with
        osInfos := db1.osInfos ++
          [⟨db1.nextId, aId, v.os.pretty_name.getD "", v.os.kernel_version.getD ""⟩],
        nextId := db1.nextId + 1 }
      let db3 : DB := { db2 with
        systemInfos := db2.systemInfos ++
          [⟨db2.nextId, aId, v.system.manufacturer.getD "",
            v.system.product_name.getD "", v.system.serial_number.getD "",
            v.system.bios_version.getD "", v.system.chassis_type.getD "",
            v.system.uptime_initial.getD ""⟩],
        nextId := db2.nextId + 1 }
      let db4 : DB := { db3 with
        cpuInfos := db3.cpuInfos ++
          [⟨db3.nextId, aId, v.cpu.model_name.getD "", v.cpu.vendor_id.getD "",
            v.cpu.total_logical_cpus.getD 0, v.cpu.physical_cores_per_socket.getD 0,
            v.cpu.architecture.getD ""⟩],
        nextId := db3.nextId + 1 }
      let db5 : DB := { db4 with
        memoryInfos := db4.memoryInfos ++
          [⟨db4.nextId, aId, v.memory.total_mb.getD 0, v.memory.speed.getD "",
            v.memory.modules_count.getD 0⟩],
        nextId := db4.nextId + 1 }
      let db6 : DB := { db5 with
        virtualizationInfos := db5.virtualizationInfos ++
          [⟨db5.nextId, aId, v.virtualization.is_vm.getD false,
            v.virtualization.hypervisor.getD ""⟩],
        nextId := db5.nextId + 1 }
      match diskInfoLoop aId (v.disks.getD []) db6 with
      | (db7, .error e) => (db7, .error e)
      | (db7, .ok _) =>
          match networkInterfaceLoop aId (v.network_interfaces.getD []) db7 with
          | (db8, .error e) => (db8, .error e)
          | (db8, .ok _) =>
              let db9 := (v.windows_updates.getD []).foldl
                (fun acc (w : WindowsUpdateInput) =>
                  { acc with
                      windowsUpdates := acc.windowsUpdates ++
                        [⟨acc.nextId, aId, w.kb_id.getD "", w.title.getD "",
                          w.installed_on.getD 0, w.status.getD ""⟩],
                      nextId := acc.nextId + 1 }) db8
              (db9, .ok aId)

/-- Validated data of the root ServerMetricSerializer: the scalar columns
plus the two nested documents, which the create method re-feeds as raw data
to fresh nested serializers (lines 242 and 246). -/
structure VServerMetric where
  timestamp : Int
  hostname : String
  asset_info : AssetInfoInput
  metrics_data : MetricDataInput := {}
deriving Repr, DecidableEq

/-- Embedding of ServerMetricSerializer.create (serializers lines 232-250).
Line 238 inserts the parent ServerMetric row first.  Lines 242-243 then
instantiate a fresh AssetInfoSerializer on the popped asset data and run
is_valid with raise_exception set: per assetInfoValidate this either crashes
on the misconfigured SystemInfoSerializer or raises a validation error, in
both cases after the parent row is already in the database; the source
contains no transaction wrapper, so the parent row stays behind.  Line 244,
were it ever reached, passes the keyword argument server_metric to
AssetInfoSerializer.create, whose signature accepts only the validated data,
so the call itself would raise a TypeError (and the metrics branch at lines
246-248 repeats the same pattern).  In the request flow this method is dead
code: the viewset validates before creating, and validation fails for every
payload (see serverMetricIngest below). -/
def serverMetricCreate (v : VServerMetric) (db : DB) : DB × Except PyErr Nat :=
  let (db1, _) := insertServerMetric v.timestamp v.hostname db
  match assetInfoValidate v.asset_info with
  | .crash e => (db1, .error e)
  | .invalid errs => (db1, .error (.validationError errs))
  | .ok _ => (db1, .error (.typeErrorArg "server_metric"))

/-! ## Query layer: filters (monitoring filters file) and viewsets -/

/-- Apply a constraint only when the query parameter was given; an absent
parameter filters nothing.  This is how a FilterSet combines its declared
filters: each provided parameter adds one conjunct. -/
def optAll {β : Type} (o : Option β) (p : β → Bool) : Bool :=
  match o with
  | none => true
  | some x => p x

/-- A string lower-cased character by character, as a character list. -/
def lowerChars (s : String) : List Char := s.data.map Char.toLower

/-- Case-insensitive exact string match (the iexact lookup). -/
def iexact (q s : String) : Bool := lowerChars q == lowerChars s

/-- Case-insensitive substring match (the icontains lookup). -/
def icontains (needle hay : String) : Bool :=
  (lowerChars hay).tails.any (fun t => (lowerChars needle).isPrefixOf t)

/-- Query parameters of ServerMetricFilter (filters lines 6-22): the declared
hostname filter uses the iexact lookup and overrides the exact filter the
Meta fields list would generate for the same name; timestamp keeps its
Meta-generated exact filter plus the declared gte and lte bounds. -/
structure ServerMetricQuery where
  hostname : Option String := none
  timestamp : Option Int := none
  timestamp_gte : Option Int := none
  timestamp_lte : Option Int := none
deriving Repr, DecidableEq

def serverMetricFilterPred (q : ServerMetricQuery) (r : ServerMetricRow) : Bool :=
  optAll q.hostname (fun h => iexact h r.hostname)
  && optAll q.timestamp (fun t => r.timestamp == t)
  && optAll q.timestamp_gte (fun t => decide (t ≤ r.timestamp))
  && optAll q.timestamp_lte (fun t => decide (r.timestamp ≤ t))

def serverMetricFilterApply (q : ServerMetricQuery) (rows : List ServerMetricRow) :
    List ServerMetricRow :=
  rows.filter (serverMetricFilterPred q)

/-- Query parameters of AssetInfoFilter (filters lines 24-42): icontains on
the related OS pretty name and system manufacturer, gte on the related memory
total, and an exact boolean on the related VM flag. -/
structure AssetInfoQuery where
  os_pretty_name : Option String := none
  system_manufacturer : Option String := none
  memory_total_mb_gte : Option Int := none
  is_vm : Option Bool := none
deriving Repr, DecidableEq

/-- The four related-field lookups of AssetInfoFilter, each a join through
the one-to-one child table keyed by the asset id. -/
def assetInfoFilterPred (q : AssetInfoQuery) (db : DB) (a : AssetInfoRow) : Bool :=
  optAll q.os_pretty_name (fun s =>
    db.osInfos.any (fun o => o.asset_info == a.id && icontains s o.pretty_name))
  && optAll q.system_manufacturer (fun s =>
    db.systemInfos.any (fun r => r.asset_info == a.id && icontains s r.manufacturer))
  && optAll q.memory_total_mb_gte (fun t =>
    db.memoryInfos.any (fun m => m.asset_info == a.id && decide (t ≤ m.total_mb)))
  && optAll q.is_vm (fun b =>
    db.virtualizationInfos.any (fun v => v.asset_info == a.id && v.is_vm == b))

def assetInfoFilterApply (q : AssetInfoQuery) (db : DB) : List AssetInfoRow :=
  db.assetInfos.filter (assetInfoFilterPred q db)

/-- Query parameters of WindowsUpdateFilter (filters lines 44-61): declared
icontains filters on kb_id and title (overriding the exact filters the Meta
fields list would generate for those names), declared gte and lte bounds on
installed_on, and the Meta-generated exact filters on installed_on and
status.  The source file breaks off inside the Meta fields list right after
the status entry; the list is closed here as the spec describes the filter
surface. -/
structure WindowsUpdateQuery where
  kb_id : Option String := none
  title : Option String := none
  installed_on : Option Int := none
  installed_on_gte : Option Int := none
  installed_on_lte : Option Int := none
  status : Option String := none
deriving Repr, DecidableEq

def windowsUpdateFilterPred (q : WindowsUpdateQuery) (u : WindowsUpdateRow) : Bool :=
  optAll q.kb_id (fun s => icontains s u.kb_id)
  && optAll q.title (fun s => icontains s u.title)
  && optAll q.installed_on (fun t => u.installed_on == t)
  && optAll q.installed_on_gte (fun t => decide (t ≤ u.installed_on))
  && optAll q.installed_on_lte (fun t => decide (u.installed_on ≤ t))
  && optAll q.status (fun s => u.status == s)

/-- Hostname of the server that owns a windows update row, through the
asset_info and server_metric joins of the order_by expression in the view
(views line 55); a dangling key orders as the empty string. -/
def ownerHostname (db : DB) (u : WindowsUpdateRow) : String :=
  match db.assetInfos.find? (fun a => a.id == u.asset_info) with
  | none => ""
  | some a =>
      match db.serverMetrics.find? (fun s => s.id == a.server_metric) with
      | none => ""
      | some s => s.hostname

/-- The default ordering of the windows-update queryset: newest installed_on
first, ties broken by the owning hostname ascending. -/
def windowsUpdateOrderLe (db : DB) (u v : WindowsUpdateRow) : Bool :=
  decide (v.installed_on < u.installed_on)
  || (u.installed_on == v.installed_on
      && decide (ownerHostname db u ≤ ownerHostname db v))

/-- The windows-update list endpoint: the filtered queryset in its default
order. -/
def windowsUpdateQuerySet (q : WindowsUpdateQuery) (db : DB) :
    List WindowsUpdateRow :=
  (db.windowsUpdates.filter (windowsUpdateFilterPred q)).mergeSort
    (windowsUpdateOrderLe db)

/-- Actions a ModelViewSet routes: full create, read, update and delete. -/
def modelViewSetActions : List String :=
  ["list", "create", "retrieve", "update", "partial_update", "destroy"]

/-- Actions a ReadOnlyModelViewSet routes: reads only. -/
def readOnlyModelViewSetActions : List String := ["list", "retrieve"]

/-- ServerMetricViewSet (views lines 17-33) subclasses ModelViewSet. -/
def serverMetricViewSetActions : List String := modelViewSetActions

/-- AssetInfoViewSet (views lines 36-47) subclasses ReadOnlyModelViewSet. -/
def assetInfoViewSetActions : List String := readOnlyModelViewSetActions

/-- WindowsUpdateViewSet (views lines 50-58) subclasses ReadOnlyModelViewSet. -/
def windowsUpdateViewSetActions : List String := readOnlyModelViewSetActions

/-- The required writable fields of AssetInfoSerializer, as declared: the
five nested one-to-one serializers carry no required option (hence required)
and the model field hostname has neither blank nor a default. -/
def assetInfoRequiredInputFields : List String :=
  ["os", "system", "cpu", "memory", "virtualization", "hostname"]

/-- The raw snapshot payload accepted by the ingestion endpoint. -/
structure ServerMetricPayload where
  timestamp : Option Int := none
  hostname : Option String := none
  asset_info : Option AssetInfoInput := none
  metrics : Option MetricDataInput := none
deriving Repr, DecidableEq

/-- The verdict top-level validation reaches on the asset_info field of a
payload: the nested AssetInfoSerializer receives only the asset_info value,
so in particular the top-level hostname plays no part in it. -/
def payloadAssetVerdict (p : ServerMetricPayload) : VResult Unit :=
  match p.asset_info with
  | none => .invalid (requiredErr "asset_info")
  | some a => assetInfoValidate a

/-! ## The full request pipeline

The viewset runs the root serializer validation first and calls create only
on success, so the remaining validators below complete the embedding of the
metrics subtree and let the whole POST flow be stated as one function. -/

/-- Digit-capacity check of a DecimalField with max digits 15 and 2 decimal
places, on values scaled by 100. -/
def dec152Ok (x : Int) : Bool := decide (x.natAbs ≤ 999999999999999)

/-- Error text of the fifteen-digit capacity check. -/
def digitsMsg15 : String := "Ensure that there are no more than 15 digits in total."

/-- Field errors of a cpu_load document: three required decimal columns with
the five-digit capacity check. -/
def cpuLoadErrors (c : CPULoadInput) : List (String × String) :=
  (match c.load_1min with
   | none => requiredErr "load_1min"
   | some p => if dec52Ok p then [] else [("load_1min", digitsMsg)])
  ++ (match c.load_5min with
      | none => requiredErr "load_5min"
      | some p => if dec52Ok p then [] else [("load_5min", digitsMsg)])
  ++ (match c.load_15min with
      | none => requiredErr "load_15min"
      | some p => if dec52Ok p then [] else [("load_15min", digitsMsg)])

/-- Validation of a cpu_load document by CPULoadMetricSerializer. -/
def cpuLoadValidate (c : CPULoadInput) : VResult VCPULoad :=
  match c.load_1min, c.load_5min, c.load_15min with
  | some a, some b, some d =>
      if (cpuLoadErrors c).isEmpty then .ok ⟨a, b, d⟩
      else .invalid (cpuLoadErrors c)
  | _, _, _ => .invalid (cpuLoadErrors c)

/-- Field errors of a network_usage document: two required decimal columns
with the fifteen-digit capacity check. -/
def networkUsageErrors (n : NetworkUsageInput) : List (String × String) :=
  (match n.received_bps with
   | none => requiredErr "received_bps"
   | some p => if dec152Ok p then [] else [("received_bps", digitsMsg15)])
  ++ (match n.transmitted_bps with
      | none => requiredErr "transmitted_bps"
      | some p => if dec152Ok p then [] else [("transmitted_bps", digitsMsg15)])

/-- Validation of a network_usage document by NetworkUsageMetricSerializer. -/
def networkUsageValidate (n : NetworkUsageInput) : VResult VNetworkUsage :=
  match n.received_bps, n.transmitted_bps with
  | some r, some t =>
      if (networkUsageErrors n).isEmpty then .ok ⟨r, t⟩
      else .invalid (networkUsageErrors n)
  | _, _ => .invalid (networkUsageErrors n)

/-- Field errors of a top_disk_consumers entry: both columns required and
non-blank, size within length 50 and path within length 1024. -/
def topDiskConsumerErrors (t : TopDiskConsumerInput) : List (String × String) :=
  (match t.size with
   | none => requiredErr "size"
   | some s => charFieldErrors "size" false (some 50) s)
  ++ (match t.path with
      | none => requiredErr "path"
      | some s => charFieldErrors "path" false (some 1024) s)

/-- Validation of one top_disk_consumers entry. -/
def topDiskConsumerValidate (t : TopDiskConsumerInput) : VResult VTopDiskConsumer :=
  match t.size, t.path with
  | some s, some p =>
      if (topDiskConsumerErrors t).isEmpty then .ok ⟨s, p⟩
      else .invalid (topDiskConsumerErrors t)
  | _, _ => .invalid (topDiskConsumerErrors t)

/-- The validated value of a validation result, if any. -/
def VResult.toOption {α : Type} : VResult α → Option α
  | .ok v => some v
  | _ => none

/-- True when every entry of a list validates. -/
def allValid {α β : Type} (f : α → VResult β) (xs : List α) : Bool :=
  xs.all (fun x => (f x).isOk)

/-- The validated values of a list whose entries all validate. -/
def validatedList {α β : Type} (f : α → VResult β) (xs : List α) : List β :=
  xs.filterMap (fun x => (f x).toOption)

/-- Validation of a top_processes document by TopProcessesMetricSerializer:
the two write-only lists are optional, and a present list validates
entry-wise through ProcessDetailSerializer. -/
def topProcessesValidate (tp : TopProcessesInput) : VResult VTopProcesses :=
  if allValid processDetailValidate (tp.by_cpu.getD [])
      && allValid processDetailValidate (tp.by_memory.getD []) then
    .ok { by_cpu := tp.by_cpu.map (validatedList processDetailValidate),
          by_memory := tp.by_memory.map (validatedList processDetailValidate) }
  else
    .invalid
      ((if allValid processDetailValidate (tp.by_cpu.getD []) then []
        else [("by_cpu", "invalid")])
       ++ (if allValid processDetailValidate (tp.by_memory.getD []) then []
           else [("by_memory", "invalid")]))

/-- One error entry for a nested field whose sub-validation failed. -/
def subErr {β : Type} (fieldName : String) (r : VResult β) : List (String × String) :=
  if r.isOk then [] else [(fieldName, "invalid")]

/-- Validation of a metrics document by MetricDataSerializer: the four nested
one-to-one documents are required (all with well-configured serializers), the
two list fields are optional and validate entry-wise. -/
def metricDataValidate (m : MetricDataInput) : VResult VMetricData :=
  match m.memory_usage, m.cpu_load, m.network_usage, m.top_processes with
  | some mu, some cl, some nu, some tp =>
      match memoryUsageValidate mu, cpuLoadValidate cl, networkUsageValidate nu,
            topProcessesValidate tp with
      | .ok vmu, .ok vcl, .ok vnu, .ok vtp =>
          if allValid diskUsageValidate (m.disk_usage.getD [])
              && allValid topDiskConsumerValidate (m.top_disk_consumers.getD []) then
            .ok { memory_usage := vmu, cpu_load := vcl, network_usage := vnu,
                  top_processes := vtp,
                  disk_usage := m.disk_usage.map (validatedList diskUsageValidate),
                  top_disk_consumers :=
                    m.top_disk_consumers.map (validatedList topDiskConsumerValidate) }
          else
            .invalid
              ((if allValid diskUsageValidate (m.disk_usage.getD []) then []
                else [("disk_usage", "invalid")])
               ++ (if allValid topDiskConsumerValidate (m.top_disk_consumers.getD [])
                   then [] else [("top_disk_consumers", "invalid")]))
      | r1, r2, r3, r4 =>
          .invalid (subErr "memory_usage" r1 ++ subErr "cpu_load" r2
            ++ subErr "network_usage" r3 ++ subErr "top_processes" r4)
  | _, _, _, _ =>
      .invalid
        ((if m.memory_usage.isNone then requiredErr "memory_usage" else [])
         ++ (if m.cpu_load.isNone then requiredErr "cpu_load" else [])
         ++ (if m.network_usage.isNone then requiredErr "network_usage" else [])
         ++ (if m.top_processes.isNone then requiredErr "top_processes" else []))

/-- Errors the non-asset writable fields of ServerMetricSerializer
contribute: the metrics document and the two scalar columns. -/
def serverMetricOtherFieldErrors (p : ServerMetricPayload) : List (String × String) :=
  (match p.metrics with
   | none => requiredErr "metrics"
   | some m => subErr "metrics" (metricDataValidate m))
  ++ (if p.timestamp.isNone then requiredErr "timestamp" else [])
  ++ (if p.hostname.isNone then requiredErr "hostname" else [])

/-- Validation of a whole snapshot payload by ServerMetricSerializer.  The
writable fields are visited in order (the declared asset_info and metrics,
then the model columns).  A present asset_info runs the nested
AssetInfoSerializer; its crash on the misconfigured SystemInfoSerializer is a
non-validation exception that aborts the whole request, while validation
errors are collected per field.  Since the asset field can never produce a
validated value, the success branch below is unreachable — mirroring the
program, in which no payload ever validates. -/
def serverMetricValidate (p : ServerMetricPayload) : VResult VServerMetric :=
  match p.asset_info with
  | none => .invalid (requiredErr "asset_info" ++ serverMetricOtherFieldErrors p)
  | some a =>
      match assetInfoValidate a with
      | .crash e => .crash e
      | .invalid _ =>
          .invalid ([("asset_info", "invalid")] ++ serverMetricOtherFieldErrors p)
      | .ok _ =>
          match p.metrics, p.timestamp, p.hostname with
          | some m, some ts, some hn =>
              match metricDataValidate m with
              | .crash e => .crash e
              | .invalid _ => .invalid [("metrics", "invalid")]
              | .ok _ =>
                  .ok { timestamp := ts, hostname := hn,
                        asset_info := a, metrics_data := m }
          | _, _, _ => .invalid (serverMetricOtherFieldErrors p)

/-- The POST endpoint flow: the viewset runs is_valid with raise_exception
set and calls the serializer create only on success.  Validation either
crashes (a server error) or reports field errors (a 400) for every payload,
so the create branch is dead code and the database is never touched by an
ingestion request. -/
def serverMetricIngest (p : ServerMetricPayload) (db : DB) : DB × Except PyErr Nat :=
  match serverMetricValidate p with
  | .crash e => (db, .error e)
  | .invalid errs => (db, .error (.validationError errs))
  | .ok v => serverMetricCreate v db

/-- True when an ingestion outcome is a success. -/
def pyResultOk : Except PyErr Nat → Bool
  | .ok _ => true
  | .error _ => false

/-! ## Concrete inputs used by the claim theorems -/

/-- A validated by_cpu entry; process_type is necessarily present because it
is a required writable field of ProcessDetailSerializer. -/
def c2Process : VProcessDetail :=
  { process_type := "cpu", pid := 1, user := "root", cpu_percent := 1050,
    mem_percent := 120, command := "python worker.py" }

/-- A validated metrics document with one by_cpu entry. -/
def c2MetricData : VMetricData :=
  { memory_usage := ⟨16000, 8000, 4000, 8000, 5000⟩,
    cpu_load := ⟨100, 90, 80⟩,
    network_usage := ⟨100000, 50000⟩,
    top_processes := { by_cpu := some [c2Process] } }

/-- A by_cpu entry that omits process_type. -/
def c3EntryWithoutTag : ProcessDetailInput :=
  { pid := some 1, user := some "root", cpu_percent := some 1050,
    mem_percent := some 120, command := some "python worker.py" }

/-- A by_cpu entry that supplies its own process_type value. -/
def c3EntryWithTag : ProcessDetailInput :=
  { process_type := some "memory", pid := some 1, user := some "root",
    cpu_percent := some 1050, mem_percent := some 120,
    command := some "python worker.py" }

/-- An asset_info document that is complete except for the cpu sub-object. -/
def c4MissingCpu : AssetInfoInput :=
  { os := some {}, system := some {}, memory := some {},
    virtualization := some {}, hostname := some "web01" }

/-- An asset_info document missing both the system and the cpu sub-object. -/
def c4MissingSystemCpu : AssetInfoInput :=
  { os := some {}, memory := some {}, virtualization := some {},
    hostname := some "web01" }

/-- An asset_info document with every required sub-object except system and
with no hostname. -/
def c10MissingHostname : AssetInfoInput :=
  { os := some {}, cpu := some {}, memory := some {},
    virtualization := some {} }

/-- The scenario claim C10 envisions: a payload whose top-level hostname
differs from the hostname inside its asset_info sub-document. -/
def c10DifferingPayload : ServerMetricPayload :=
  { timestamp := some 0, hostname := some "web01",
    asset_info := some
      { os := some {}, system := some {}, cpu := some {}, memory := some {},
        virtualization := some {}, hostname := some "db01" },
    metrics := some {} }

/-! ## Claims -/

/-- Claim C1 (confirmed).  Ingestion is all-or-nothing on this code in the
strongest form: every request fails during validation — before the create
method or any write runs — so after any ingestion attempt the database is
exactly what it was before: no row of the request is persisted, partially or
otherwise, and previously ingested records are unchanged.  (The success
branch of the claim is vacuous: the misconfigured SystemInfoSerializer
prevents any payload from validating, so the create body is dead code.) -/
theorem c1_ingestion_all_or_nothing :
    ∀ (p : ServerMetricPayload) (db : DB),
        (serverMetricIngest p db).1 = db
        ∧ pyResultOk (serverMetricIngest p db).2 = false := by
  intro p db
  cases hp : p.asset_info with
  | none => simp [serverMetricIngest, serverMetricValidate, hp, pyResultOk]
  | some a =>
      cases hs : a.system <;>
        simp [serverMetricIngest, serverMetricValidate, assetInfoValidate,
          hp, hs, pyResultOk]

/-- Claim C2 (code bug).  The by_cpu / by_memory entries of a validated
payload are never persisted as ProcessDetail rows: the metric-data create
fails at its first insert (no parent key), and even granting the parent, the
top_processes step instantiates the model directly with the validated dict,
whose by_cpu key the constructor rejects; the custom serializer create that
would do the tagged expansion is itself unable to insert its container and,
past that, repeats the process_type keyword in every ProcessDetail call. -/
theorem c2_process_entries_never_persisted :
    (metricDataCreate c2MetricData {}).2
        = .error (.integrityError "metric_data.server_metric_id")
    ∧ (metricDataCreate c2MetricData {}).1 = ({} : DB)
    ∧ (topProcessesDirectCreate 1 { by_cpu := some [c2Process] } {}).2
        = .error (.unexpectedKwarg "by_cpu")
    ∧ (topProcessesDirectCreate 1 { by_cpu := some [c2Process] } {}).1.processDetails
        = []
    ∧ (topProcessesSerializerCreate { by_cpu := some [c2Process] } {}).2
        = .error (.integrityError "top_processes_metric.metrics_data_id")
    ∧ firstDuplicate processDetailCreateKwargs = some "process_type" :=
  ⟨rfl, rfl, rfl, rfl, rfl, rfl⟩

/-- Claim C3 (code bug).  The process_type tag is accepted — indeed demanded
— as direct input: ProcessDetailSerializer keeps the model field writable
with no default, so an entry without it is rejected as missing a required
field, an entry may carry any of the two choice values itself, and the create
call then passes the field twice (hard-coded tag plus entry value). -/
theorem c3_process_type_is_direct_input :
    processDetailValidate c3EntryWithoutTag
        = .invalid [("process_type", "This field is required.")]
    ∧ processDetailSerializerWritableFields.contains "process_type" = true
    ∧ processDetailValidate c3EntryWithTag
        = .ok ⟨"memory", 1, "root", 1050, 120, "python worker.py"⟩ :=
  ⟨rfl, rfl, rfl⟩

/-- Claim C4 (code bug).  A payload missing the cpu sub-object (with system
present) is not answered with a validation error naming cpu: validation
crashes on the misconfigured SystemInfoSerializer before reaching the cpu
field.  Only when system itself is also absent are per-field required errors
reported (then naming both system and cpu).  No payload ever validates, so
zero rows are persisted on every rejection, but the per-field contract of the
claim fails. -/
theorem c4_missing_subobject_not_reported_per_field :
    assetInfoValidate c4MissingCpu = .crash (.configError "SystemInfoSerializer")
    ∧ assetInfoValidate c4MissingSystemCpu
        = .invalid [("system", "This field is required."),
                    ("cpu", "This field is required.")]
    ∧ (∀ a : AssetInfoInput, (assetInfoValidate a).isOk = false) := by
  refine ⟨rfl, rfl, ?_⟩
  intro a
  cases h : a.system <;> simp [assetInfoValidate, h, VResult.isOk]

/-- Claim C5 counterexample.  Update and partial-update operations do exist
for snapshots: ServerMetricViewSet subclasses the full ModelViewSet, which
routes update, partial_update and destroy in addition to list, create and
retrieve. -/
theorem c5_counterexample_update_exists :
    serverMetricViewSetActions.contains "update" = true
    ∧ serverMetricViewSetActions.contains "partial_update" = true
    ∧ serverMetricViewSetActions.contains "destroy" = true := by
  decide

/-- Claim C5 (amended).  The asset and windows-update endpoints are read-only
(list and retrieve only), but the snapshot endpoint exposes update,
partial-update and destroy alongside creation and reads, so snapshots are not
immutable at the API surface. -/
theorem c5_amended_action_surface :
    serverMetricViewSetActions
        = ["list", "create", "retrieve", "update", "partial_update", "destroy"]
    ∧ assetInfoViewSetActions = ["list", "retrieve"]
    ∧ windowsUpdateViewSetActions = ["list", "retrieve"]
    ∧ assetInfoViewSetActions.contains "create" = false
    ∧ assetInfoViewSetActions.contains "update" = false
    ∧ assetInfoViewSetActions.contains "partial_update" = false
    ∧ assetInfoViewSetActions.contains "destroy" = false
    ∧ windowsUpdateViewSetActions.contains "create" = false
    ∧ windowsUpdateViewSetActions.contains "update" = false
    ∧ windowsUpdateViewSetActions.contains "partial_update" = false
    ∧ windowsUpdateViewSetActions.contains "destroy" = false := by
  decide

/-- Claim C8 (code bug).  The SystemInfo model defines no last-update-check
timestamp and no pending-update count; the serializer Meta nonetheless lists
both names (and sets fields together with exclude), a configuration the
serializer layer rejects, so the two values can neither be persisted nor
round-tripped. -/
theorem c8_system_update_fields_absent :
    systemInfoModelFields.contains "last_update_check_time" = false
    ∧ systemInfoModelFields.contains "pending_updates_count" = false
    ∧ (systemInfoSerializerMeta.fieldsOpt.getD []).contains "last_update_check_time"
        = true
    ∧ (systemInfoSerializerMeta.fieldsOpt.getD []).contains "pending_updates_count"
        = true
    ∧ drfMetaOk systemInfoSerializerMeta systemInfoModelFields = false := by
  decide

/-- An absent query parameter constrains nothing; a present one imposes its
lookup. -/
theorem optAll_eq_true_iff {β : Type} (o : Option β) (p : β → Bool) :
    optAll o p = true ↔ ∀ x, o = some x → p x = true := by
  cases o <;> simp [optAll]

/-- Claim C6 (confirmed).  Filtering snapshots by hostname keeps exactly the
rows whose hostname equals the query up to case (full-string equality, no
substring matching), and filtering assets by the minimum-memory parameter
keeps exactly the assets whose related memory row meets the threshold. -/
theorem c6_hostname_iexact_memory_gte :
    (∀ (h : String) (rows : List ServerMetricRow) (r : ServerMetricRow),
        r ∈ serverMetricFilterApply { hostname := some h } rows ↔
          r ∈ rows ∧ lowerChars r.hostname = lowerChars h)
    ∧ (∀ (t : Int) (db : DB) (a : AssetInfoRow),
        a ∈ assetInfoFilterApply { memory_total_mb_gte := some t } db ↔
          a ∈ db.assetInfos
          ∧ ∃ m ∈ db.memoryInfos, m.asset_info = a.id ∧ t ≤ m.total_mb) := by
  constructor
  · intro h rows r
    simp [serverMetricFilterApply, List.mem_filter, serverMetricFilterPred,
      optAll, iexact]
    intro _
    exact eq_comm
  · intro t db a
    simp [assetInfoFilterApply, List.mem_filter, assetInfoFilterPred, optAll,
      List.any_eq_true]

/-- Witness for C6: querying hostname WEB01 matches the row whose stored
hostname is web01 in a table that also holds web011. -/
theorem c6_hostname_iexact_memory_gte_witness :
    (⟨1, 0, "web01"⟩ : ServerMetricRow) ∈
      serverMetricFilterApply { hostname := some "WEB01" }
        [⟨1, 0, "web01"⟩, ⟨2, 0, "web011"⟩] :=
  (c6_hostname_iexact_memory_gte.1 "WEB01" _ _).mpr ⟨by decide, by decide⟩

/-- Claim C10 counterexample.  At the exact scenario the claim envisions — a
payload whose top-level hostname web01 differs from the db01 inside its
asset_info — ingestion errors and leaves the store untouched, so the two
hostnames cannot be observed to differ in a persisted snapshot: none is ever
persisted. -/
theorem c10_counterexample_nothing_persisted :
    (serverMetricIngest c10DifferingPayload {}).1 = ({} : DB)
    ∧ pyResultOk (serverMetricIngest c10DifferingPayload {}).2 = false :=
  ⟨rfl, rfl⟩

/-- Claim C10 (amended).  The asset_info document must carry its own
non-blank hostname (a required writable field backed by its own column,
separate from the snapshot hostname column), and no check compares it with
the top-level hostname: the asset-side validation verdict is unchanged under
any top-level hostname.  But because no ingestion request ever persists a
snapshot on this code, differing hostnames exist only in payloads, never in a
persisted snapshot. -/
theorem c10_amended_redundant_asset_hostname :
    assetInfoRequiredInputFields.contains "hostname" = true
    ∧ assetInfoModelFields.contains "hostname" = true
    ∧ serverMetricModelFields.contains "hostname" = true
    ∧ assetInfoValidate c10MissingHostname
        = .invalid [("system", "This field is required."),
                    ("hostname", "This field is required.")]
    ∧ assetInfoValidate { c10MissingHostname with hostname := some "" }
        = .invalid [("system", "This field is required."),
                    ("hostname", "This field may not be blank.")]
    ∧ (∀ (p : ServerMetricPayload) (h : Option String),
        payloadAssetVerdict { p with hostname := h } = payloadAssetVerdict p) := by
  refine ⟨rfl, rfl, rfl, rfl, rfl, fun p h => rfl⟩

/-- Claim C9 (confirmed).  The windows-update listing keeps exactly the rows
matching every given parameter — case-insensitive substring on the KB id and
on the title, the installed-on range bounds (and the Meta-generated exact
match), and exact status — combined conjunctively, and the result is the
filtered table ordered newest installed-on first with ties broken by the
owning hostname. -/
theorem c9_windows_update_filter_and_order :
    (∀ (q : WindowsUpdateQuery) (db : DB) (u : WindowsUpdateRow),
        u ∈ windowsUpdateQuerySet q db ↔
          u ∈ db.windowsUpdates
          ∧ (∀ s, q.kb_id = some s → icontains s u.kb_id = true)
          ∧ (∀ s, q.title = some s → icontains s u.title = true)
          ∧ (∀ t, q.installed_on = some t → u.installed_on = t)
          ∧ (∀ t, q.installed_on_gte = some t → t ≤ u.installed_on)
          ∧ (∀ t, q.installed_on_lte = some t → u.installed_on ≤ t)
          ∧ (∀ s, q.status = some s → u.status = s))
    ∧ (∀ (q : WindowsUpdateQuery) (db : DB),
        (windowsUpdateQuerySet q db).Pairwise
          (fun u v => windowsUpdateOrderLe db u v = true)
        ∧ (windowsUpdateQuerySet q db).Perm
            (db.windowsUpdates.filter (windowsUpdateFilterPred q))) := by
  constructor
  · intro q db u
    simp [windowsUpdateQuerySet, List.mem_mergeSort, List.mem_filter,
      windowsUpdateFilterPred, optAll_eq_true_iff]
    tauto
  · intro q db
    constructor
    · have htrans : ∀ a b c : WindowsUpdateRow,
          windowsUpdateOrderLe db a b = true → windowsUpdateOrderLe db b c = true →
          windowsUpdateOrderLe db a c = true := by
        intro a b c hab hbc
        simp only [windowsUpdateOrderLe, Bool.or_eq_true, Bool.and_eq_true,
          decide_eq_true_eq, beq_iff_eq] at hab hbc ⊢
        rcases hab with h1 | ⟨h1, h2⟩ <;> rcases hbc with g1 | ⟨g1, g2⟩
        · left; omega
        · left; omega
        · left; omega
        · right; exact ⟨h1.trans g1, le_trans h2 g2⟩
      have htotal : ∀ a b : WindowsUpdateRow,
          (windowsUpdateOrderLe db a b || windowsUpdateOrderLe db b a) = true := by
        intro a b
        simp only [windowsUpdateOrderLe, Bool.or_eq_true, Bool.and_eq_true,
          decide_eq_true_eq, beq_iff_eq]
        rcases lt_trichotomy a.installed_on b.installed_on with h | h | h
        · right; left; exact h
        · rcases le_total (ownerHostname db a) (ownerHostname db b) with hh | hh
          · left; right; exact ⟨h, hh⟩
          · right; right; exact ⟨h.symm, hh⟩
        · left; left; exact h
      exact List.sorted_mergeSort htrans htotal _
    · exact List.mergeSort_perm _ _

/-- Witness for C9: the query kb_id=kb50 matches the stored update KB5003173
case-insensitively and by substring, so the row is in the listing. -/
theorem c9_windows_update_filter_and_order_witness :
    (⟨7, 1, "KB5003173", "Cumulative Update", 100, "Installed"⟩ : WindowsUpdateRow) ∈
      windowsUpdateQuerySet { kb_id := some "kb50" }
        { windowsUpdates :=
            [⟨7, 1, "KB5003173", "Cumulative Update", 100, "Installed"⟩] } := by
  refine (c9_windows_update_filter_and_order.1 _ _ _).mpr
    ⟨by decide, ?_, ?_, ?_, ?_, ?_, ?_⟩ <;> intro x hx <;> cases hx
  decide

end CapacityMonitoring
